import Mathlib

/-!
Shallow embedding of `src/ClaudeIsland/Resources/claude-island-state.py`.

The script is a Claude Code hook: it reads one JSON event from stdin,
classifies it, builds a `SessionState` record, sends it over a Unix socket
to the desktop app, and (for permission requests only) waits for a decision.

Effects are modelled by explicit environment records:
* the filesystem probes of `validate_tty` become `FS : String → Except Unit TtyInfo`
  (an `Except.error` is an `OSError` raised during the checks);
* the `os.kill(pid, 0)` probe of `is_session_active` becomes a `KillResult`;
* the socket operations of `send_event` become a `SendEnv`.

Python truthiness (`if tool := data.get("tool_name"):`, `reason or default`,
`if not response:`) is modelled explicitly: an absent key is `none`, and an
empty string / empty dict is falsy.
-/

namespace ClaudeIsland

/-- Values admissible in a `tool_input` mapping:
`dict[str, str | int | bool | list[str] | None]`. -/
inductive ToolVal where
  | str : String → ToolVal
  | int : Int → ToolVal
  | bool : Bool → ToolVal
  | list : List String → ToolVal
  | null : ToolVal
deriving DecidableEq

/-- The type `ToolInputType = dict[str, str | int | bool | list[str] | None]`,
modelled as an association list in insertion order. -/
def ToolInputType := List (String × ToolVal)
deriving DecidableEq

instance : EmptyCollection ToolInputType := ⟨([] : List (String × ToolVal))⟩

/-- Structure `HookEventData`: the (total=False) input dictionary from stdin.
Every key is optional; `none` models an absent key. -/
structure HookEventData where
  session_id : Option String := none
  hook_event_name : Option String := none
  cwd : Option String := none
  tool_name : Option String := none
  tool_input : Option ToolInputType := none
  tool_use_id : Option String := none
  notification_type : Option String := none
  message : Option String := none
deriving DecidableEq

/-- Structure `ToolExtras`: the extra-fields dictionary returned by `determine_status`.
All keys optional; `none` models an absent key. -/
structure ToolExtras where
  tool : Option String := none
  tool_input : Option ToolInputType := none
  tool_use_id : Option String := none
  notification_type : Option String := none
  message : Option String := none
deriving DecidableEq

/-- Python truthiness filter for `if x := data.get(key): extras[key] = x`:
keeps a string only when the key is present and the value non-empty. -/
def truthyStr : Option String → Option String
  | some s => if s = "" then none else some s
  | none => none

/-- Function `determine_status(event, data)`: dispatch on the hook event name,
returning `(status, extras)`.  A direct transcription of the
`match event:` statement (lines 285-370 of the script). -/
def determine_status (event : String) (data : HookEventData) :
    String × ToolExtras :=
  match event with
  | "UserPromptSubmit" => ("processing", {})
  | "PreToolUse" =>
      ("running_tool",
        { tool := truthyStr data.tool_name,
          tool_input := some (data.tool_input.getD {}),
          tool_use_id := truthyStr data.tool_use_id })
  | "PostToolUse" =>
      ("processing",
        { tool := truthyStr data.tool_name,
          tool_input := some (data.tool_input.getD {}),
          tool_use_id := truthyStr data.tool_use_id })
  | "PermissionRequest" =>
      ("waiting_for_approval",
        { tool_input := some (data.tool_input.getD {}),
          tool := truthyStr data.tool_name })
  | "Notification" =>
      (match data.notification_type with
       | some "permission_prompt" => ("skip", {})
       | some "idle_prompt" =>
           ("waiting_for_input",
             { notification_type := truthyStr data.notification_type,
               message := truthyStr data.message })
       | _ =>
           ("notification",
             { notification_type := truthyStr data.notification_type,
               message := truthyStr data.message }))
  | "Stop" => ("waiting_for_input", {})
  | "SubagentStop" => ("processing", {})
  | "SessionStart" => ("waiting_for_input", {})
  | "SessionEnd" => ("ended", {})
  | "PreCompact" => ("compacting", {})
  | _ => ("unknown", {})

/-- C1: `determine_status` is a pure total function (by construction in this
embedding) and its status component follows the dispatch table:
UserPromptSubmit ↦ processing, PreToolUse ↦ running_tool, PostToolUse ↦
processing, PermissionRequest ↦ waiting_for_approval, Notification ↦ skip /
waiting_for_input / notification according to `notification_type`
(permission_prompt / idle_prompt / anything else), Stop ↦ waiting_for_input,
SubagentStop ↦ processing, SessionStart ↦ waiting_for_input, SessionEnd ↦
ended, PreCompact ↦ compacting, and every unrecognized event name ↦ unknown. -/
theorem determine_status_dispatch (data : HookEventData) :
    (determine_status "UserPromptSubmit" data).1 = "processing" ∧
    (determine_status "PreToolUse" data).1 = "running_tool" ∧
    (determine_status "PostToolUse" data).1 = "processing" ∧
    (determine_status "PermissionRequest" data).1 = "waiting_for_approval" ∧
    (data.notification_type = some "permission_prompt" →
      (determine_status "Notification" data).1 = "skip") ∧
    (data.notification_type = some "idle_prompt" →
      (determine_status "Notification" data).1 = "waiting_for_input") ∧
    (data.notification_type ≠ some "permission_prompt" →
      data.notification_type ≠ some "idle_prompt" →
      (determine_status "Notification" data).1 = "notification") ∧
    (determine_status "Stop" data).1 = "waiting_for_input" ∧
    (determine_status "SubagentStop" data).1 = "processing" ∧
    (determine_status "SessionStart" data).1 = "waiting_for_input" ∧
    (determine_status "SessionEnd" data).1 = "ended" ∧
    (determine_status "PreCompact" data).1 = "compacting" ∧
    (∀ e, e ∉ (["UserPromptSubmit", "PreToolUse", "PostToolUse",
        "PermissionRequest", "Notification", "Stop", "SubagentStop",
        "SessionStart", "SessionEnd", "PreCompact"] : List String) →
      (determine_status e data).1 = "unknown") := by
  refine ⟨rfl, rfl, rfl, rfl, ?_, ?_, ?_, rfl, rfl, rfl, rfl, rfl, ?_⟩
  · intro h
    unfold determine_status
    rw [h]
    rfl
  · intro h
    unfold determine_status
    rw [h]
    rfl
  · intro h1 h2
    unfold determine_status
    split <;> simp_all
  · intro e he
    simp only [List.mem_cons, List.not_mem_nil, or_false] at he
    push_neg at he
    obtain ⟨n1, n2, n3, n4, n5, n6, n7, n8, n9, n10⟩ := he
    unfold determine_status
    split <;> simp_all

/-- C1 witness: the dispatch theorem applied at a concrete unrecognized
event name. -/
theorem determine_status_dispatch_witness :
    (determine_status "SomethingElse" ({} : HookEventData)).1 = "unknown" :=
  (determine_status_dispatch {}).2.2.2.2.2.2.2.2.2.2.2.2 "SomethingElse"
    (by decide)

/-- C2 counterexample: a Notification event with `notification_type =
idle_prompt` and a non-empty `message` in the payload produces extras that DO
contain a `message` field (lines 340-341 of the script copy it over), refuting
the claim that the extras contain only `notification_type` and never contain
`message`. -/
theorem notification_idle_message_present :
    ((determine_status "Notification"
        { notification_type := some "idle_prompt",
          message := some "hi" }).2).message = some "hi" := rfl

/-- C2 amended: a Notification event with `notification_type = idle_prompt`
classifies to `waiting_for_input`; the extras contain the `notification_type`
field and, when the payload supplies a non-empty `message`, also that
`message` field — and no other field. -/
theorem notification_idle_extras (data : HookEventData)
    (h : data.notification_type = some "idle_prompt") :
    determine_status "Notification" data =
      ("waiting_for_input",
        { notification_type := some "idle_prompt",
          message := truthyStr data.message }) := by
  unfold determine_status
  rw [h]
  rfl

/-- C2 witness: the amended theorem applied at a concrete payload with a
non-empty message. -/
theorem notification_idle_extras_witness :
    determine_status "Notification"
        { notification_type := some "idle_prompt", message := some "hi" } =
      ("waiting_for_input",
        { notification_type := some "idle_prompt", message := some "hi" }) :=
  notification_idle_extras
    { notification_type := some "idle_prompt", message := some "hi" } rfl

/-- Structure `SessionState`: the frozen dataclass, with the same fields and defaults. -/
structure SessionState where
  session_id : String
  cwd : String
  event : String
  pid : Int
  tty : Option String
  tty_valid : Bool := false
  session_active : Bool := true
  status : String := "unknown"
  tool : Option String := none
  tool_input : ToolInputType := {}
  tool_use_id : Option String := none
  notification_type : Option String := none
  message : Option String := none
deriving DecidableEq

/-- JSON-serializable values appearing in the `to_dict` result. -/
inductive DVal where
  | str : String → DVal
  | int : Int → DVal
  | bool : Bool → DVal
  | null : DVal
  | dict : ToolInputType → DVal
deriving DecidableEq

/-- Serialization of an optional string field that is always emitted
(`tty`): `None` becomes JSON `null`. -/
def optStrVal : Option String → DVal
  | some s => .str s
  | none => .null

/-- Method `SessionState.to_dict`: the serialized dictionary as an association list
in the insertion order of the source.  Optional fields `tool`, `tool_use_id`,
`notification_type`, `message` are emitted only when set; `tool_input` is
always emitted. -/
def SessionState.to_dict (s : SessionState) : List (String × DVal) :=
  [("session_id", .str s.session_id),
   ("cwd", .str s.cwd),
   ("event", .str s.event),
   ("pid", .int s.pid),
   ("tty", optStrVal s.tty),
   ("tty_valid", .bool s.tty_valid),
   ("session_active", .bool s.session_active),
   ("status", .str s.status)]
  ++ (match s.tool with
      | some t => [("tool", DVal.str t)]
      | none => [])
  ++ [("tool_input", .dict s.tool_input)]
  ++ (match s.tool_use_id with
      | some t => [("tool_use_id", DVal.str t)]
      | none => [])
  ++ (match s.notification_type with
      | some n => [("notification_type", DVal.str n)]
      | none => [])
  ++ (match s.message with
      | some m => [("message", DVal.str m)]
      | none => [])

/-- C5: the serialized dictionary contains every required field with the
exact value of the record, always contains `tool_input` (possibly the empty
mapping), and for each optional scalar field the lookup equals the field
mapped into a JSON string — so an unset field is absent (`lookup = none`,
not `null`), and a set field is recovered exactly on decode. -/
theorem to_dict_fields (s : SessionState) :
    (s.to_dict).lookup "session_id" = some (.str s.session_id) ∧
    (s.to_dict).lookup "cwd" = some (.str s.cwd) ∧
    (s.to_dict).lookup "event" = some (.str s.event) ∧
    (s.to_dict).lookup "pid" = some (.int s.pid) ∧
    (s.to_dict).lookup "tty" = some (optStrVal s.tty) ∧
    (s.to_dict).lookup "tty_valid" = some (.bool s.tty_valid) ∧
    (s.to_dict).lookup "session_active" = some (.bool s.session_active) ∧
    (s.to_dict).lookup "status" = some (.str s.status) ∧
    (s.to_dict).lookup "tool_input" = some (.dict s.tool_input) ∧
    (s.to_dict).lookup "tool" = s.tool.map DVal.str ∧
    (s.to_dict).lookup "tool_use_id" = s.tool_use_id.map DVal.str ∧
    (s.to_dict).lookup "notification_type" =
      s.notification_type.map DVal.str ∧
    (s.to_dict).lookup "message" = s.message.map DVal.str := by
  obtain ⟨sid, cwd, ev, pid, tty, tv, sa, st, tool, ti, tid, nt, msg⟩ := s
  cases tool <;> cases tid <;> cases nt <;> cases msg <;>
    simp [SessionState.to_dict, List.lookup, Option.map]

/-- Result of the filesystem probes made by `validate_tty` on one path:
`exists()`, `is_char_device()`, `os.access(..., W_OK)`. -/
structure TtyInfo where
  pathExists : Bool
  isCharDevice : Bool
  writable : Bool
deriving DecidableEq

/-- Filesystem model: per path, either the probe results or an `OSError`
raised during the checks (`Except.error ()`). -/
def FS := String → Except Unit TtyInfo

/-- Function `validate_tty(tty)`: first `if not tty: return False`, then inside a
`try/except OSError` the conjunction `exists and is_char_device and
os.access(W_OK)`, with any `OSError` giving `False`. -/
def validate_tty (fs : FS) (tty : Option String) : Bool :=
  match tty with
  | none => false
  | some t =>
    if t = "" then false
    else
      match fs t with
      | .error _ => false
      | .ok info => info.pathExists && info.isCharDevice && info.writable

/-- Outcome of the `os.kill(pid, 0)` existence probe.  The script catches
only `ProcessLookupError` and `PermissionError`; any other `OSError` is
`otherOSError` and is not caught. -/
inductive KillResult where
  | ok
  | noSuchProcess
  | permissionError
  | otherOSError
deriving DecidableEq

/-- Python truthiness of an optional string (`if tty:`). -/
def pyTruthy : Option String → Bool
  | some s => !(s = "")
  | none => false

/-- Function `is_session_active(pid, tty)`: probe the pid with signal 0 (catching
only no-such-process, which gives `False`, and permission errors, which are
ignored; any other `OSError` propagates, modelled by `Except.error`), then
`if tty and not validate_tty(tty): return False`, else `True`. -/
def is_session_active (kill : KillResult) (fs : FS) (tty : Option String) :
    Except Unit Bool :=
  match kill with
  | .noSuchProcess => .ok false
  | .otherOSError => .error ()
  | _ =>
    if pyTruthy tty && !(validate_tty fs tty) then .ok false
    else .ok true

/-- C7: `validate_tty` returns true exactly when the path is supplied,
non-empty, its probes succeed, and they report an existing, character-device,
writable file; an `OSError` during the checks gives false, and an existing
writable path that is not a character device gives false. -/
theorem validate_tty_spec (fs : FS) (tty : Option String) :
    (validate_tty fs tty = true ↔
      ∃ t info, tty = some t ∧ t ≠ "" ∧ fs t = .ok info ∧
        info.pathExists = true ∧ info.isCharDevice = true ∧
        info.writable = true) ∧
    (∀ t, tty = some t → fs t = .error () → validate_tty fs tty = false) ∧
    (∀ t info, tty = some t → fs t = .ok info → info.isCharDevice = false →
      validate_tty fs tty = false) := by
  refine ⟨?_, ?_, ?_⟩
  · cases tty with
    | none => simp [validate_tty]
    | some t =>
      by_cases ht : t = ""
      · subst ht
        simp [validate_tty]
      · cases hfs : fs t with
        | error e => simp [validate_tty, ht, hfs]
        | ok info =>
          simp [validate_tty, ht, hfs]
          tauto
  · rintro t rfl hfs
    by_cases ht : t = ""
    · simp [validate_tty, ht]
    · simp [validate_tty, ht, hfs]
  · rintro t info rfl hfs hchar
    by_cases ht : t = ""
    · simp [validate_tty, ht]
    · simp [validate_tty, ht, hfs, hchar]

/-- C7 witness: a concrete existing, writable path that is not a character
device is invalid, and a valid path satisfies all three probe conditions. -/
theorem validate_tty_spec_witness :
    validate_tty (fun _ => .ok ⟨true, false, true⟩) (some "/dev/x") =
      false :=
  (validate_tty_spec (fun _ => .ok ⟨true, false, true⟩) (some "/dev/x")).2.2
    "/dev/x" ⟨true, false, true⟩ rfl rfl rfl

/-- C6 counterexample: with an existing process and the supplied terminal
path `""` — which `validate_tty` rejects — `is_session_active` still returns
true, because `if tty and not validate_tty(tty)` treats the empty string as
falsy and skips the check.  The claim says a supplied path failing the
`tty_valid` check makes the result false. -/
theorem session_active_empty_tty :
    validate_tty (fun _ => .ok ⟨true, true, true⟩) (some "") = false ∧
    is_session_active .ok (fun _ => .ok ⟨true, true, true⟩) (some "") =
      .ok true :=
  ⟨rfl, rfl⟩

/-- C6 amended: `is_session_active` returns false when the probe fails with
no-such-process; when the probe succeeds or fails only with a permission
error, it returns false exactly when a NON-EMPTY terminal path was supplied
that fails the `tty_valid` check, and an absent (or empty) terminal path
alone never makes the result false. -/
theorem is_session_active_spec (kill : KillResult) (fs : FS)
    (tty : Option String) :
    (is_session_active .noSuchProcess fs tty = .ok false) ∧
    (kill = .ok ∨ kill = .permissionError →
      (is_session_active kill fs tty = .ok false ↔
        ∃ t, tty = some t ∧ t ≠ "" ∧ validate_tty fs (some t) = false)) ∧
    (kill = .ok ∨ kill = .permissionError → tty = none →
      is_session_active kill fs tty = .ok true) := by
  refine ⟨rfl, ?_, ?_⟩
  · rintro (rfl | rfl) <;>
    · cases tty with
      | none => simp [is_session_active, pyTruthy]
      | some t =>
        by_cases ht : t = ""
        · subst ht
          simp [is_session_active, pyTruthy]
        · by_cases hv : validate_tty fs (some t) = true
          · simp [is_session_active, pyTruthy, ht, hv]
          · simp only [Bool.not_eq_true] at hv
            simp [is_session_active, pyTruthy, ht, hv]
  · rintro (rfl | rfl) rfl <;> rfl

/-- C6 witness: the amended theorem applied with a permission-error probe
and a concrete non-empty invalid terminal path (result false), discharging
the hypotheses concretely. -/
theorem is_session_active_spec_witness :
    is_session_active .permissionError
      (fun _ => .ok ⟨false, false, false⟩) (some "/dev/t") = .ok false :=
  ((is_session_active_spec .permissionError
      (fun _ => .ok ⟨false, false, false⟩) (some "/dev/t")).2.1
    (Or.inr rfl)).2 ⟨"/dev/t", rfl, by decide, rfl⟩

/-- C8 counterexample: an `OSError` from the `os.kill` probe that is neither
no-such-process nor a permission error is not caught by `is_session_active`
(its `except` clauses name only `ProcessLookupError` and `PermissionError`),
so the error propagates to the caller instead of degrading the result. -/
theorem probe_other_error_propagates :
    is_session_active .otherOSError (fun _ => .ok ⟨true, true, true⟩) none =
      .error () := rfl

/-- Helper: for the two caught probe errors and the success case,
`is_session_active` returns a value rather than an error. -/
theorem isOk_of_caught_probe (kill : KillResult) (fs : FS)
    (tty : Option String) (hk : kill ≠ .otherOSError) :
    ∃ b, is_session_active kill fs tty = .ok b := by
  cases kill with
  | noSuchProcess => exact ⟨false, rfl⟩
  | otherOSError => exact absurd rfl hk
  | ok =>
    by_cases h : (pyTruthy tty && !(validate_tty fs tty)) = true
    · exact ⟨false, by simp [is_session_active, h]⟩
    · exact ⟨true, by simp [is_session_active, h]⟩
  | permissionError =>
    by_cases h : (pyTruthy tty && !(validate_tty fs tty)) = true
    · exact ⟨false, by simp [is_session_active, h]⟩
    · exact ⟨true, by simp [is_session_active, h]⟩

/-- C8 amended: `validate_tty` absorbs every OS error from the terminal
metadata lookups (an error degrades the result to invalid), and
`is_session_active` never raises as long as the probe error, if any, is
no-such-process or a permission error; an OS error of any other kind from
the probe propagates. -/
theorem liveness_error_absorption (kill : KillResult) (fs : FS)
    (tty : Option String) (hk : kill ≠ .otherOSError) :
    (∃ b, is_session_active kill fs tty = .ok b) ∧
    (∀ t, fs t = .error () → validate_tty fs (some t) = false) := by
  constructor
  · exact isOk_of_caught_probe kill fs tty hk
  · intro t hfs
    by_cases ht : t = ""
    · simp [validate_tty, ht]
    · simp [validate_tty, ht, hfs]

/-- C8 witness: the amended theorem applied with a succeeding probe and a
filesystem whose lookups all raise. -/
theorem liveness_error_absorption_witness :
    (∃ b, is_session_active .ok (fun _ => .error ()) (some "/dev/t") =
      .ok b) ∧
    validate_tty (fun _ => .error ()) (some "/dev/t") = false :=
  ⟨(liveness_error_absorption .ok (fun _ => .error ()) (some "/dev/t")
      (by decide)).1,
   (liveness_error_absorption .ok (fun _ => .error ()) (some "/dev/t")
      (by decide)).2 "/dev/t" rfl⟩

/-- Structure `PermissionResponse`: a string-keyed dictionary from the app; `decision`
and `reason` optional (`none` = key absent).  `hasOtherKeys` records whether
the dictionary carries any further keys, which matters only for the Python
truthiness test `if not response:` (the empty dict is falsy). -/
structure PermissionResponse where
  decision : Option String := none
  reason : Option String := none
  hasOtherKeys : Bool := false
deriving DecidableEq

/-- Test `if not response:` on a dictionary — true exactly for the empty dict. -/
def PermissionResponse.isEmptyDict (r : PermissionResponse) : Bool :=
  r.decision.isNone && r.reason.isNone && !r.hasOtherKeys

/-- Minimal JSON tree for the control messages written to stdout. -/
inductive Json where
  | str : String → Json
  | obj : List (String × Json) → Json

/-- The fixed default deny message. -/
def defaultDenyMessage : String := "Denied by user via ClaudeIsland"

/-- The allow control message emitted for `decision == "allow"`. -/
def allowMessage : Json :=
  .obj [("hookSpecificOutput",
    .obj [("hookEventName", .str "PermissionRequest"),
          ("decision", .obj [("behavior", .str "allow")])])]

/-- The deny control message emitted for `decision == "deny"`. -/
def denyMessage (m : String) : Json :=
  .obj [("hookSpecificOutput",
    .obj [("hookEventName", .str "PermissionRequest"),
          ("decision", .obj [("behavior", .str "deny"),
                             ("message", .str m)])])]

/-- Python `a or b` on strings: `a` when non-empty, otherwise `b`. -/
def pyOr (a b : String) : String :=
  if a = "" then b else a

/-- Result of `handle_permission_response`: the control message printed (if
any) and the exit code of the `sys.exit` executed inside the function
(`none` when the function returns normally to its caller). -/
structure HandleResult where
  output : Option Json
  exited : Option Nat

/-- Function `handle_permission_response(response)`: first `if not response: return`, then
`decision = response.get("decision", "ask")`, `reason =
response.get("reason", "")`, and a match emitting the allow / deny control
message and exiting 0, or doing nothing for `ask` and unknown decisions. -/
def handle_permission_response (response : Option PermissionResponse) :
    HandleResult :=
  match response with
  | none => ⟨none, none⟩
  | some r =>
    if r.isEmptyDict then ⟨none, none⟩
    else
      let decision := r.decision.getD "ask"
      if decision = "allow" then ⟨some allowMessage, some 0⟩
      else if decision = "deny" then
        ⟨some (denyMessage (pyOr (r.reason.getD "") defaultDenyMessage)),
         some 0⟩
      else ⟨none, none⟩

/-- The exit code of the full permission path of `main` (lines 463-466):
`handle_permission_response(response); sys.exit(0)` — the code of the exit
taken inside the handler, or 0 from the `sys.exit(0)` that follows. -/
def permissionExit (response : Option PermissionResponse) : Nat :=
  (handle_permission_response response).exited.getD 0

/-- C4: `decision == "allow"` emits exactly the allow control message and
exits 0; `decision == "deny"` emits the deny message carrying the supplied
(non-empty) reason, or the fixed default message when no reason was given,
and exits 0; and a missing response, `decision == "ask"`, an absent
decision, or any unrecognized decision produces no output, the process
still exiting 0. -/
theorem handle_permission_response_spec (r : PermissionResponse) :
    (r.decision = some "allow" →
      handle_permission_response (some r) = ⟨some allowMessage, some 0⟩) ∧
    (∀ reason, r.decision = some "deny" → r.reason = some reason →
      reason ≠ "" →
      handle_permission_response (some r) =
        ⟨some (denyMessage reason), some 0⟩) ∧
    (r.decision = some "deny" → r.reason = none →
      handle_permission_response (some r) =
        ⟨some (denyMessage defaultDenyMessage), some 0⟩) ∧
    (handle_permission_response none = ⟨none, none⟩) ∧
    (r.decision = some "ask" →
      (handle_permission_response (some r)).output = none) ∧
    (r.decision = none →
      (handle_permission_response (some r)).output = none) ∧
    (∀ d, r.decision = some d → d ≠ "allow" → d ≠ "deny" →
      (handle_permission_response (some r)).output = none) ∧
    permissionExit (some r) = 0 ∧ permissionExit none = 0 := by
  obtain ⟨dec, reason, extra⟩ := r
  refine ⟨?_, ?_, ?_, rfl, ?_, ?_, ?_, ?_, rfl⟩
  · rintro rfl
    simp [handle_permission_response, PermissionResponse.isEmptyDict]
  · rintro rs rfl rfl hne
    simp [handle_permission_response, PermissionResponse.isEmptyDict,
      pyOr, hne]
  · rintro rfl rfl
    simp [handle_permission_response, PermissionResponse.isEmptyDict,
      pyOr, defaultDenyMessage]
  · rintro rfl
    simp [handle_permission_response, PermissionResponse.isEmptyDict]
  · rintro rfl
    simp [handle_permission_response, PermissionResponse.isEmptyDict]
  · rintro d rfl hna hnd
    simp [handle_permission_response, PermissionResponse.isEmptyDict,
      hna, hnd]
  · simp only [permissionExit, handle_permission_response]
    split
    · rfl
    · split
      · rfl
      · split <;> rfl

/-- C4 witness: the theorem applied at the concrete allow response. -/
theorem handle_permission_response_spec_witness :
    handle_permission_response
        (some { decision := some "allow" }) = ⟨some allowMessage, some 0⟩ :=
  (handle_permission_response_spec { decision := some "allow" }).1 rfl

/-- C10: a deny response whose `reason` key is present but holds the empty
string produces the deny control message with the fixed default message —
the truthiness test `reason or "Denied by user via ClaudeIsland"` cannot
distinguish an empty supplied reason from an absent one. -/
theorem deny_empty_reason_default (b : Bool) :
    handle_permission_response
        (some { decision := some "deny", reason := some "",
                hasOtherKeys := b }) =
      ⟨some (denyMessage "Denied by user via ClaudeIsland"), some 0⟩ := by
  cases b <;> rfl

/-- Constant `TIMEOUT_SECONDS = 300`: the socket timeout applied before connecting,
bounding the blocking read for permission decisions. -/
def TIMEOUT_SECONDS : Nat := 300

/-- What `sock.recv(4096)` and the subsequent parsing yield when a read is
attempted: an `OSError` (including timeout), zero bytes (falsy, skipped),
bytes that fail `json.loads` (`JSONDecodeError`), parsed JSON that is not a
string-keyed object (fails `is_permission_response`), or a response
dictionary. -/
inductive RecvOutcome where
  | osError
  | empty
  | malformed
  | jsonNonDict
  | response : PermissionResponse → RecvOutcome
deriving DecidableEq

/-- Socket environment for one `send_event` call: whether `connect`
succeeds, whether `sendall` succeeds, and what a read would yield. -/
structure SendEnv where
  connectOk : Bool
  sendOk : Bool
  recv : RecvOutcome
deriving DecidableEq

/-- Result of `send_event`: the returned response (or `None`) and whether a
blocking `recv` was performed. -/
structure SendOutcome where
  response : Option PermissionResponse
  didRecv : Bool
deriving DecidableEq

/-- Function `send_event(state)`: connect, send the serialized record, and only when
`state.status == "waiting_for_approval"` block on `recv`; every `OSError`
and `JSONDecodeError` on the way is caught and yields `None`
(lines 261-282 of the script). -/
def send_event (env : SendEnv) (state : SessionState) : SendOutcome :=
  if !env.connectOk then ⟨none, false⟩
  else if !env.sendOk then ⟨none, false⟩
  else if state.status = "waiting_for_approval" then
    match env.recv with
    | .osError => ⟨none, true⟩
    | .empty => ⟨none, true⟩
    | .malformed => ⟨none, true⟩
    | .jsonNonDict => ⟨none, true⟩
    | .response r => ⟨some r, true⟩
  else ⟨none, false⟩

/-- C3: after a successful connect and write, `send_event` performs the
blocking read (bounded by the 300-second timeout) exactly when the
status is `waiting_for_approval`; for every other status the response is
`None` with no read; and every connection failure, send failure, timeout,
empty read, or malformed reply yields `None` rather than an error. -/
theorem send_event_spec (env : SendEnv) (state : SessionState) :
    TIMEOUT_SECONDS = 300 ∧
    (env.connectOk = true → env.sendOk = true →
      ((send_event env state).didRecv = true ↔
        state.status = "waiting_for_approval")) ∧
    (state.status ≠ "waiting_for_approval" →
      send_event env state = ⟨none, false⟩) ∧
    (env.connectOk = false → send_event env state = ⟨none, false⟩) ∧
    (env.sendOk = false → send_event env state = ⟨none, false⟩) ∧
    (env.recv = .osError ∨ env.recv = .empty ∨ env.recv = .malformed ∨
        env.recv = .jsonNonDict →
      (send_event env state).response = none) := by
  obtain ⟨c, s, recv⟩ := env
  refine ⟨rfl, ?_, ?_, ?_, ?_, ?_⟩
  · rintro rfl rfl
    by_cases hw : state.status = "waiting_for_approval"
    · cases recv <;> simp [send_event, hw]
    · simp [send_event, hw]
  · intro hw
    cases c <;> cases s <;> simp [send_event, hw]
  · rintro rfl
    simp [send_event]
  · rintro rfl
    cases c <;> simp [send_event]
  · rintro (rfl | rfl | rfl | rfl) <;>
    · cases c <;> cases s <;>
        by_cases hw : state.status = "waiting_for_approval" <;>
        simp [send_event, hw]

/-- C3 witness: the theorem applied at a concrete waiting-for-approval
record whose read times out — the read is attempted and the response is
`None`. -/
theorem send_event_spec_witness :
    ((send_event ⟨true, true, .osError⟩
        { session_id := "s", cwd := "/", event := "PermissionRequest",
          pid := 1, tty := none,
          status := "waiting_for_approval" }).didRecv = true ↔
      "waiting_for_approval" = "waiting_for_approval") ∧
    (send_event ⟨true, true, .osError⟩
        { session_id := "s", cwd := "/", event := "PermissionRequest",
          pid := 1, tty := none,
          status := "waiting_for_approval" }).response = none :=
  ⟨(send_event_spec ⟨true, true, .osError⟩
      { session_id := "s", cwd := "/", event := "PermissionRequest",
        pid := 1, tty := none,
        status := "waiting_for_approval" }).2.1 rfl rfl,
   (send_event_spec ⟨true, true, .osError⟩
      { session_id := "s", cwd := "/", event := "PermissionRequest",
        pid := 1, tty := none,
        status := "waiting_for_approval" }).2.2.2.2.2 (Or.inl rfl)⟩

/-- Environment for one invocation of `main`: the probe outcome, the
filesystem, the terminal path resolved by `get_tty` (whose `ps` /
`os.ttyname` lookups are external data sources), the parent pid, and the
socket environment. -/
structure MainEnv where
  kill : KillResult
  fs : FS
  tty : Option String
  pid : Int
  send : SendEnv

/-- Observable outcome of one invocation of `main`: the exit code, whether
an uncaught exception aborted the process, the records written to the
socket (in order), and the control message printed to stdout. -/
structure MainResult where
  exitCode : Nat
  crashed : Bool
  sent : List SessionState
  output : Option Json

/-- Function `main()`: parse stdin (`none` models invalid JSON or a non-dict, which
exits 1), resolve pid/tty, run the liveness checks (an uncaught probe error
aborts), classify, exit 0 early on `skip` with no network traffic, build
the record, and either run the permission round-trip or fire-and-forget
(lines 415-469 of the script). -/
def mainRun (input : Option HookEventData) (env : MainEnv) : MainResult :=
  match input with
  | none => ⟨1, false, [], none⟩
  | some data =>
    let event := data.hook_event_name.getD ""
    match is_session_active env.kill env.fs env.tty with
    | .error _ => ⟨1, true, [], none⟩
    | .ok session_active =>
      let se := determine_status event data
      if se.1 = "skip" then ⟨0, false, [], none⟩
      else
        let state : SessionState :=
          { session_id := data.session_id.getD "unknown",
            cwd := data.cwd.getD "",
            event := event,
            pid := env.pid,
            tty := env.tty,
            tty_valid := validate_tty env.fs env.tty,
            session_active := session_active,
            status := se.1,
            tool := se.2.tool,
            tool_input := se.2.tool_input.getD {},
            tool_use_id := se.2.tool_use_id,
            notification_type := se.2.notification_type,
            message := se.2.message }
        if se.1 = "waiting_for_approval" then
          let out := send_event env.send state
          ⟨permissionExit out.response, false, [state],
           (handle_permission_response out.response).output⟩
        else
          let _ := send_event env.send state
          ⟨0, false, [state], none⟩

/-- C9: an input whose event is `Notification` with `notification_type =
permission_prompt` classifies to `skip`, and `main` then exits 0 having sent
nothing over the socket and printed nothing (assuming the liveness probe
does not abort the process with an uncaught error). -/
theorem skip_no_network (data : HookEventData) (env : MainEnv)
    (hev : data.hook_event_name = some "Notification")
    (hnt : data.notification_type = some "permission_prompt")
    (hk : env.kill ≠ .otherOSError) :
    (determine_status (data.hook_event_name.getD "") data).1 = "skip" ∧
    (mainRun (some data) env).exitCode = 0 ∧
    (mainRun (some data) env).sent = [] ∧
    (mainRun (some data) env).output = none ∧
    (mainRun (some data) env).crashed = false := by
  have hds : determine_status "Notification" data = ("skip", {}) := by
    unfold determine_status
    rw [hnt]
    rfl
  obtain ⟨b, hb⟩ := isOk_of_caught_probe env.kill env.fs env.tty hk
  have hrun : mainRun (some data) env = ⟨0, false, [], none⟩ := by
    simp [mainRun, hev, hds, hb]
  rw [hev]
  simp only [Option.getD_some]
  rw [hds, hrun]
  exact ⟨rfl, rfl, rfl, rfl, rfl⟩

/-- C9 witness: the theorem applied at a concrete permission-prompt
notification and a concrete healthy environment. -/
theorem skip_no_network_witness :
    (mainRun
        (some { hook_event_name := some "Notification",
                notification_type := some "permission_prompt" })
        ⟨.ok, fun _ => .ok ⟨true, true, true⟩, none, 7,
         ⟨true, true, .osError⟩⟩).sent = [] :=
  (skip_no_network
    { hook_event_name := some "Notification",
      notification_type := some "permission_prompt" }
    ⟨.ok, fun _ => .ok ⟨true, true, true⟩, none, 7, ⟨true, true, .osError⟩⟩
    rfl rfl (by decide)).2.2.1

end ClaudeIsland
